import Mathlib

/-!
Shallow embedding of the ledger-balance and analytics logic of the
roncav-budget Django application (src/django_app/budget).

Monetary values are modelled as exact rationals: the source stores them
as Python/SQL fixed-point decimals, whose arithmetic on + - * is exact.
Database tables are association lists keyed by the surrogate id.  Each
view function is translated into an explicit state transformer over a
database snapshot, reproducing the exact sequence of reads and writes
the Python code performs — including which in-memory model instance each
write goes through, since the source reads a row into a Python object,
mutates the object and saves it, and two fetches of the same row yield
two independent objects.
-/

namespace Budget

/-- Transaction kind: receita (income) or despesa (expense). -/
inductive Tipo where
  | receita
  | despesa
  deriving DecidableEq, Repr

/-- models.Conta: bank account / wallet.  Fields criado_em and
atualizado_em (timestamps) are omitted; tipo is the free-form account
kind string. -/
structure Conta where
  usuario : Nat
  nome : String
  tipo : String
  saldo : ℚ
  ativo : Bool
  deriving DecidableEq, Repr

/-- models.Categoria.  The icone and cor display fields are omitted. -/
structure Categoria where
  usuario : Nat
  nome : String
  tipo : Tipo
  deriving DecidableEq, Repr

/-- models.Transacao.  `data` is the transaction date as an ordinal day
number; `mes` and `ano` are the calendar month and year of that date
(calendar decomposition of dates is performed by the database layer in
the source, so it is carried here as plain fields).  The free-text
observacoes field is omitted. -/
structure Transacao where
  usuario : Nat
  conta : Nat
  categoria : Option Nat
  descricao : String
  valor : ℚ
  tipo : Tipo
  data : Nat
  mes : Nat
  ano : Nat
  recorrente : Bool
  deriving DecidableEq, Repr

/-- models.Orcamento: monthly spending limit for one category. -/
structure Orcamento where
  usuario : Nat
  categoria : Nat
  limite : ℚ
  mes : Nat
  ano : Nat
  deriving DecidableEq, Repr

/-- A database snapshot: each table is an association list keyed by the
surrogate primary key. -/
structure DB where
  contas : List (Nat × Conta)
  categorias : List (Nat × Categoria)
  transacoes : List (Nat × Transacao)
  orcamentos : List (Nat × Orcamento)
  deriving DecidableEq, Repr

/-- First row with the given key, if any. -/
def findA {α : Type} (l : List (Nat × α)) (k : Nat) : Option α :=
  (l.find? (fun p => p.1 == k)).map (fun p => p.2)

/-- Overwrite the row(s) with the given key. -/
def setA {α : Type} (l : List (Nat × α)) (k : Nat) (v : α) : List (Nat × α) :=
  l.map (fun p => if p.1 = k then (k, v) else p)

/-- Remove the row(s) with the given key. -/
def eraseA {α : Type} (l : List (Nat × α)) (k : Nat) : List (Nat × α) :=
  l.filter (fun p => p.1 != k)

def DB.getConta (db : DB) (cid : Nat) : Option Conta :=
  findA db.contas cid

def DB.getCategoria (db : DB) (cid : Nat) : Option Categoria :=
  findA db.categorias cid

def DB.getTransacao (db : DB) (tid : Nat) : Option Transacao :=
  findA db.transacoes tid

/-- `Conta.objects.get(id=cid, usuario=user)`: the owner-scoped fetch the
web views use; a row owned by another user is indistinguishable from a
missing row. -/
def DB.getContaDoUsuario (db : DB) (user cid : Nat) : Option Conta :=
  match db.getConta cid with
  | some c => if c.usuario = user then some c else none
  | none => none

/-- `Categoria.objects.get(id=cid, usuario=user)`. -/
def DB.getCategoriaDoUsuario (db : DB) (user cid : Nat) : Option Categoria :=
  match db.getCategoria cid with
  | some c => if c.usuario = user then some c else none
  | none => none

/-- `Transacao.objects.get(id=tid, usuario=user)`. -/
def DB.getTransacaoDoUsuario (db : DB) (user tid : Nat) : Option Transacao :=
  match db.getTransacao tid with
  | some t => if t.usuario = user then some t else none
  | none => none

/-- Persist a new saldo for account `cid` (conta.save after mutating the
object's saldo; every other stored column keeps its value). -/
def DB.setSaldo (db : DB) (cid : Nat) (s : ℚ) : DB :=
  { db with contas := db.contas.map (fun p => if p.1 = cid then (p.1, { p.2 with saldo := s }) else p) }

def DB.setConta (db : DB) (cid : Nat) (c : Conta) : DB :=
  { db with contas := setA db.contas cid c }

def DB.insertTransacao (db : DB) (tid : Nat) (t : Transacao) : DB :=
  { db with transacoes := (tid, t) :: db.transacoes }

def DB.setTransacao (db : DB) (tid : Nat) (t : Transacao) : DB :=
  { db with transacoes := setA db.transacoes tid t }

def DB.delTransacao (db : DB) (tid : Nat) : DB :=
  { db with transacoes := eraseA db.transacoes tid }

/-- api/views.py TransacaoViewSet._aplicar_saldo, as a pure function on
the saldo it reads from the in-memory conta object: receita adds the
amount going forward and subtracts it when reverting; despesa is the
mirror image. -/
def aplicarSaldo (saldo valor : ℚ) (tipo : Tipo) (reverter : Bool) : ℚ :=
  match tipo with
  | .receita => if reverter then saldo - valor else saldo + valor
  | .despesa => if reverter then saldo + valor else saldo - valor

/-- Signed contribution of a transaction to its account's balance. -/
def delta (tipo : Tipo) (valor : ℚ) : ℚ :=
  match tipo with
  | .receita => valor
  | .despesa => -valor

/-- Signed sum of all currently-existing transactions referencing
account `cid`. -/
def somaAssinada (db : DB) (cid : Nat) : ℚ :=
  ((db.transacoes.filter (fun p => p.2.conta == cid)).map (fun p => delta p.2.tipo p.2.valor)).sum

/-- views.py dashboard lines 177-181: total balance over the user's
active accounts. -/
def saldo_total (db : DB) (user : Nat) : ℚ :=
  ((db.contas.filter (fun p => p.2.usuario == user && p.2.ativo)).map (fun p => p.2.saldo)).sum

/-- Outcome kinds of an API request that did not complete: serializer
validation failure (HTTP 400), ownership rejection raised by
_validate_related_objects (HTTP 403), object not found in the
owner-scoped queryset (HTTP 404), or an exception raised by a step
inside the transaction.atomic block.  In every one of these cases the
atomic block's writes are discarded, so the resulting database state is
the state at entry — which is why the API operations return
`Except ApiErro DB` with no state attached to the error. -/
inductive ApiErro where
  | validacao
  | permissaoNegada
  | naoEncontrado
  | falhaInterna
  deriving DecidableEq, Repr

/-- views.py transacao_criar (POST branch), as a transformer of the
database snapshot; the Bool result is whether the success branch ran.
There is no transaction.atomic here and the handler catches every
exception, so the two persists (Transacao.objects.create, conta.save)
commit independently.  `falhaAoSalvarSaldo` injects an exception raised
by conta.save() after the Transacao row was created (for example the new
saldo overflowing the DECIMAL(12,2) column, or the connection dropping);
the handler catches it and renders an error message, keeping the already
committed row. -/
def transacao_criar (db : DB) (user tid contaId categoriaId : Nat)
    (descricao : String) (valor : ℚ) (tipo : Tipo) (data mes ano : Nat)
    (recorrente : Bool) (falhaAoSalvarSaldo : Bool) : DB × Bool :=
  match db.getContaDoUsuario user contaId with
  | none => (db, false)
  | some conta =>
    match db.getCategoriaDoUsuario user categoriaId with
    | none => (db, false)
    | some _ =>
      let db1 := db.insertTransacao tid
        { usuario := user, conta := contaId, categoria := some categoriaId,
          descricao := descricao, valor := valor, tipo := tipo,
          data := data, mes := mes, ano := ano, recorrente := recorrente }
      if falhaAoSalvarSaldo then
        (db1, false)
      else
        (db1.setSaldo contaId (aplicarSaldo conta.saldo valor tipo false), true)

/-- views.py transacao_editar (POST branch).  The handler first does
`transacao.conta.saldo -= / += valor` on the in-memory Conta object the
transaction row points at, but that object is never saved: the handler
then fetches `nova_conta` with a separate query (a fresh object, even
when it is the same account row), reassigns transacao.conta to it, and
only calls transacao.save() and nova_conta.save().  The reversal
therefore has no database effect, which this embedding reproduces. -/
def transacao_editar (db : DB) (user tid novaContaId novaCategoriaId : Nat)
    (descricao : String) (valor : ℚ) (tipo : Tipo) (data mes ano : Nat)
    (recorrente : Bool) : DB × Bool :=
  match db.getTransacaoDoUsuario user tid with
  | none => (db, false)
  | some t =>
    match db.getContaDoUsuario user novaContaId with
    | none => (db, false)
    | some novaConta =>
      match db.getCategoriaDoUsuario user novaCategoriaId with
      | none => (db, false)
      | some _ =>
        let db1 := db.setTransacao tid
          { t with conta := novaContaId, categoria := some novaCategoriaId,
                   descricao := descricao, valor := valor, tipo := tipo,
                   data := data, mes := mes, ano := ano, recorrente := recorrente }
        (db1.setSaldo novaContaId (aplicarSaldo novaConta.saldo valor tipo false), true)

/-- views.py transacao_deletar (POST branch): revert the balance effect
on the transaction's account (here the mutated object IS saved), then
delete the row. -/
def transacao_deletar (db : DB) (user tid : Nat) : DB × Bool :=
  match db.getTransacaoDoUsuario user tid with
  | none => (db, false)
  | some t =>
    match db.getConta t.conta with
    | none => (db, false)
    | some c =>
      let db1 := db.setSaldo t.conta (aplicarSaldo c.saldo t.valor t.tipo true)
      (db1.delTransacao tid, true)

/-- views.py conta_deletar (POST branch): soft delete — fetch the
owner-scoped account, set ativo to False and save it. -/
def conta_deletar (db : DB) (user cid : Nat) : DB × Bool :=
  match db.getContaDoUsuario user cid with
  | none => (db, false)
  | some c => (db.setConta cid { c with ativo := false }, true)

/-- api/views.py TransacaoViewSet.perform_create.  The serializer's
conta field resolves the id against Conta.objects.all() (a missing id is
a validation error), then _validate_related_objects rejects rows owned
by another user with PermissionDenied — all before any write.  The two
writes (row insert, balance save) run inside transaction.atomic;
`falhaNaUnidadeAtomica` injects an exception inside that block, whose
writes are then rolled back, so the error cases carry no state. -/
def perform_create (db : DB) (user tid contaId : Nat) (categoriaId : Option Nat)
    (descricao : String) (valor : ℚ) (tipo : Tipo) (data mes ano : Nat)
    (recorrente : Bool) (falhaNaUnidadeAtomica : Bool) : Except ApiErro DB :=
  match db.getConta contaId with
  | none => .error .validacao
  | some conta =>
    let categoriaResolvida : Except ApiErro (Option Categoria) :=
      match categoriaId with
      | some cat =>
        match db.getCategoria cat with
        | some c => .ok (some c)
        | none => .error .validacao
      | none => .ok none
    match categoriaResolvida with
    | .error e => .error e
    | .ok categoria =>
      if conta.usuario ≠ user then .error .permissaoNegada
      else if (match categoria with
               | some c => c.usuario != user
               | none => false) then .error .permissaoNegada
      else if falhaNaUnidadeAtomica then .error .falhaInterna
      else
        let db1 := db.insertTransacao tid
          { usuario := user, conta := contaId, categoria := categoriaId,
            descricao := descricao, valor := valor, tipo := tipo,
            data := data, mes := mes, ano := ano, recorrente := recorrente }
        .ok (db1.setSaldo contaId (aplicarSaldo conta.saldo valor tipo false))

/-- `serializer.validated_data.get("categoria") or serializer.instance.categoria`. -/
def contaFieldCategoria (categoriaField : Option Nat) (inst : Transacao) : Option Nat :=
  match categoriaField with
  | some cat => some cat
  | none => inst.categoria

/-- api/views.py TransacaoViewSet.perform_update.  Payload fields are
optional (PATCH may omit any of them; PUT sends them all) and fall back
to the stored instance, mirroring `validated_data.get(..., default)`.
When the payload contains a conta id, the serializer resolves it with
its own query at validation time, producing a second in-memory object
whose saldo snapshot predates the writes of the atomic block.  Inside
the block the code (1) saves the reversal of the original
amount/kind through the instance's conta object, (2) saves the row with
its new fields, (3) applies the new amount/kind forward through
`transacao.conta` — which is the validation-time object when conta was
in the payload (so for a same-account edit step 3 overwrites the
reversal persisted in step 1 with a computation on the stale snapshot),
and is the same object step 1 mutated when conta was omitted.  An
explicit null categoria in the payload is not distinguished from an
absent one here (both fall back, as `validated_data.get("categoria") or
instance.categoria` does for the ownership check). -/
def perform_update (db : DB) (user tid : Nat)
    (contaField categoriaField : Option Nat) (descricaoField : Option String)
    (valorField : Option ℚ) (tipoField : Option Tipo)
    (dataField : Option (Nat × Nat × Nat)) (recorrenteField : Option Bool)
    (falhaNaUnidadeAtomica : Bool) : Except ApiErro DB :=
  match db.getTransacaoDoUsuario user tid with
  | none => .error .naoEncontrado
  | some inst =>
    match db.getConta inst.conta with
    | none => .error .validacao
    | some instConta =>
      let contaResolvida : Except ApiErro (Nat × Conta) :=
        match contaField with
        | some cid =>
          match db.getConta cid with
          | some c => .ok (cid, c)
          | none => .error .validacao
        | none => .ok (inst.conta, instConta)
      match contaResolvida with
      | .error e => .error e
      | .ok (contaId, contaObj) =>
        let categoriaId := contaFieldCategoria categoriaField inst
        let categoriaDona : Bool :=
          match categoriaId with
          | some cat =>
            match db.getCategoria cat with
            | some c => c.usuario == user
            | none => false
          | none => true
        if contaObj.usuario ≠ user then .error .permissaoNegada
        else if ¬ categoriaDona then .error .permissaoNegada
        else if falhaNaUnidadeAtomica then .error .falhaInterna
        else
          let novoValor := valorField.getD inst.valor
          let novoTipo := tipoField.getD inst.tipo
          let novaData := dataField.getD (inst.data, inst.mes, inst.ano)
          let saldoRevertido := aplicarSaldo instConta.saldo inst.valor inst.tipo true
          let db1 := db.setSaldo inst.conta saldoRevertido
          let db2 := db1.setTransacao tid
            { inst with conta := contaId, categoria := categoriaId,
                        descricao := descricaoField.getD inst.descricao,
                        valor := novoValor, tipo := novoTipo,
                        data := novaData.1, mes := novaData.2.1, ano := novaData.2.2,
                        recorrente := recorrenteField.getD inst.recorrente }
          let saldoBase :=
            match contaField with
            | some _ => contaObj.saldo
            | none => saldoRevertido
          .ok (db2.setSaldo contaId (aplicarSaldo saldoBase novoValor novoTipo false))

/-- api/views.py TransacaoViewSet.perform_destroy: inside
transaction.atomic, revert the balance effect through the instance's
conta object and delete the row. -/
def perform_destroy (db : DB) (user tid : Nat) (falhaNaUnidadeAtomica : Bool) :
    Except ApiErro DB :=
  match db.getTransacaoDoUsuario user tid with
  | none => .error .naoEncontrado
  | some inst =>
    match db.getConta inst.conta with
    | none => .error .validacao
    | some c =>
      if falhaNaUnidadeAtomica then .error .falhaInterna
      else
        let db1 := db.setSaldo inst.conta (aplicarSaldo c.saldo inst.valor inst.tipo true)
        .ok (db1.delTransacao tid)

/-- Return shape of analytics.py FinancialAnalytics.resumo_geral.  The
source converts the exact decimal aggregates to float only when
building the result dict; the values are modelled exactly. -/
structure ResumoGeral where
  totalReceitas : ℚ
  qtdReceitas : Nat
  totalDespesas : ℚ
  qtdDespesas : Nat
  saldoAtual : ℚ
  balanco : ℚ
  mediaReceita : ℚ
  mediaDespesa : ℚ
  deriving DecidableEq, Repr

/-- analytics.py FinancialAnalytics.resumo_geral: totals and counts of
the user's income and expense transactions with data in
[dataInicio, dataFim], the current total over active accounts, the net
balance, and averages whose denominator is floored at 1. -/
def resumo_geral (db : DB) (user : Nat) (dataInicio dataFim : Nat) : ResumoGeral :=
  let ts := db.transacoes.filter
    (fun p => p.2.usuario == user && dataInicio ≤ p.2.data && p.2.data ≤ dataFim)
  let receitas := ts.filter (fun p => p.2.tipo == Tipo.receita)
  let despesas := ts.filter (fun p => p.2.tipo == Tipo.despesa)
  let totalReceitas := (receitas.map (fun p => p.2.valor)).sum
  let totalDespesas := (despesas.map (fun p => p.2.valor)).sum
  { totalReceitas := totalReceitas
    qtdReceitas := receitas.length
    totalDespesas := totalDespesas
    qtdDespesas := despesas.length
    saldoAtual := saldo_total db user
    balanco := totalReceitas - totalDespesas
    mediaReceita := totalReceitas / ((max receitas.length 1 : Nat) : ℚ)
    mediaDespesa := totalDespesas / ((max despesas.length 1 : Nat) : ℚ) }

/-- Spent amount of a budget: sum of the user's expense transactions in
the budget's category, month and year.  This is the query both
analytics.py orcamento_performance and notifications.py _calcular_gasto
issue. -/
def gastoOrcamento (db : DB) (user cat mes ano : Nat) : ℚ :=
  ((db.transacoes.filter
      (fun p => p.2.usuario == user && p.2.categoria == some cat
        && p.2.tipo == Tipo.despesa && p.2.mes == mes && p.2.ano == ano)).map
    (fun p => p.2.valor)).sum

/-- Percent of the budget used, with a zero guard on nonpositive limits:
`(float(gasto) / float(orc.limite)) * 100 if orc.limite > 0 else 0`. -/
def percentualOrcamento (limite gasto : ℚ) : ℚ :=
  if limite > 0 then gasto / limite * 100 else 0

/-- analytics.py FinancialAnalytics._status_orcamento. -/
def statusOrcamento (percentual : ℚ) : String :=
  if percentual < 70 then "normal"
  else if percentual < 90 then "atencao"
  else if percentual < 100 then "critico"
  else "excedido"

/-- One entry of the orcamento_performance result.  The categoria nome
and icone display fields of the source dict are replaced by the
category id; the source also rounds percentual to two decimals for
display only (the status is computed on the unrounded value), which is
omitted here. -/
structure ItemPerformance where
  categoria : Nat
  limite : ℚ
  gasto : ℚ
  disponivel : ℚ
  percentual : ℚ
  status : String
  deriving DecidableEq, Repr

/-- The entry analytics.py orcamento_performance builds for one budget. -/
def orcamento_performance_item (db : DB) (user : Nat) (orc : Orcamento) : ItemPerformance :=
  let gasto := gastoOrcamento db user orc.categoria orc.mes orc.ano
  let percentual := percentualOrcamento orc.limite gasto
  { categoria := orc.categoria
    limite := orc.limite
    gasto := gasto
    disponivel := orc.limite - gasto
    percentual := percentual
    status := statusOrcamento percentual }

/-- analytics.py FinancialAnalytics.orcamento_performance: one entry per
budget of the user for the given (current) month and year. -/
def orcamento_performance (db : DB) (user mes ano : Nat) : List ItemPerformance :=
  (db.orcamentos.filter
      (fun p => p.2.usuario == user && p.2.mes == mes && p.2.ano == ano)).map
    (fun p => orcamento_performance_item db user p.2)

/-- An alert of notifications.py BudgetNotificationSystem._criar_alerta.
The icone, titulo and mensagem display strings (text with the formatted
numbers interpolated) are omitted; tipo is the CSS class, nivel the
severity. -/
structure Alerta where
  tipo : String
  nivel : String
  orcamentoId : Nat
  categoria : Nat
  percentual : ℚ
  deriving DecidableEq, Repr

/-- notifications.py BudgetNotificationSystem._criar_alerta: severity by
percent used — at least 100 is critico, at least 90 alto, at least 75
medio, below that no alert. -/
def criar_alerta (orcamentoId : Nat) (orc : Orcamento) (percentual : ℚ) : Option Alerta :=
  if percentual ≥ 100 then
    some { tipo := "danger", nivel := "critico", orcamentoId := orcamentoId,
           categoria := orc.categoria, percentual := percentual }
  else if percentual ≥ 90 then
    some { tipo := "warning", nivel := "alto", orcamentoId := orcamentoId,
           categoria := orc.categoria, percentual := percentual }
  else if percentual ≥ 75 then
    some { tipo := "info", nivel := "medio", orcamentoId := orcamentoId,
           categoria := orc.categoria, percentual := percentual }
  else
    none

/-- notifications.py BudgetNotificationSystem.get_alertas over the
user's budgets of the given (current) month and year.  The percent
computation `(gasto / orc.limite * 100) if orc.limite > 0 else 0` is the
same formula as percentualOrcamento. -/
def get_alertas (db : DB) (user mes ano : Nat) : List Alerta :=
  (db.orcamentos.filter
      (fun p => p.2.usuario == user && p.2.mes == mes && p.2.ano == ano)).filterMap
    (fun p =>
      criar_alerta p.1 p.2
        (percentualOrcamento p.2.limite (gastoOrcamento db user p.2.categoria p.2.mes p.2.ano)))

/-- Return shape of notifications.py contar_alertas. -/
structure ContagemAlertas where
  total : Nat
  criticos : Nat
  altos : Nat
  medios : Nat
  deriving DecidableEq, Repr

/-- notifications.py BudgetNotificationSystem.contar_alertas. -/
def contar_alertas (alertas : List Alerta) : ContagemAlertas :=
  { total := alertas.length
    criticos := alertas.countP (fun a => a.nivel == "critico")
    altos := alertas.countP (fun a => a.nivel == "alto")
    medios := alertas.countP (fun a => a.nivel == "medio") }

/-- Return shape of analytics.py tendencia_gastos.  In the source the
empty-input early return carries the keys media_diaria / tendencia /
variacao while the main return carries variacao_percentual and
dias_analisados; both are modelled by this one record.  The two-decimal
display rounding of media and variacao is omitted (the trend label is
computed from the unrounded value in the source as well). -/
structure Tendencia where
  mediaDiaria : ℚ
  tendencia : String
  variacao : ℚ
  diasAnalisados : Nat
  deriving DecidableEq, Repr

/-- analytics.py FinancialAnalytics.tendencia_gastos, over the ordered
sequence of daily expense totals the grouped query returns (the
group-by-day aggregation itself is a persistence-boundary primitive). -/
def tendencia_gastos (valores : List ℚ) : Tendencia :=
  if valores.isEmpty then
    { mediaDiaria := 0, tendencia := "estavel", variacao := 0, diasAnalisados := 0 }
  else
    let media := valores.sum / (valores.length : ℚ)
    let meio := valores.length / 2
    let variacao : ℚ :=
      if meio > 0 then
        let mediaPrimeira := (valores.take meio).sum / (meio : ℚ)
        let mediaSegunda := (valores.drop meio).sum / ((valores.length - meio : Nat) : ℚ)
        if mediaPrimeira > 0 then (mediaSegunda - mediaPrimeira) / mediaPrimeira * 100 else 0
      else 0
    { mediaDiaria := media
      tendencia :=
        if variacao > 5 then "crescente"
        else if variacao < -5 then "decrescente"
        else "estavel"
      variacao := variacao
      diasAnalisados := valores.length }

/-- A small concrete database: user 1 owns account 1 (saldo 100.00) and
categories 1 (income) and 2 (expense); user 2 owns account 2 and
category 3. -/
def cenarioBase : DB :=
  { contas := [(1, { usuario := 1, nome := "Principal", tipo := "corrente", saldo := 100, ativo := true }),
               (2, { usuario := 2, nome := "Outra", tipo := "corrente", saldo := 5, ativo := true })]
    categorias := [(1, { usuario := 1, nome := "Salario", tipo := .receita }),
                   (2, { usuario := 1, nome := "Comida", tipo := .despesa }),
                   (3, { usuario := 2, nome := "Lazer", tipo := .despesa })]
    transacoes := []
    orcamentos := [] }

/-- cenarioBase after user 1 creates income transaction 10 of 50.00 on
account 1 through the web form handler: saldo 150.00. -/
def cenarioAposCriarWeb : DB :=
  (transacao_criar cenarioBase 1 10 1 1 "Salario" 50 .receita 15 1 2025 false false).1

/-- cenarioBase with income transaction 10 of 50.00 already recorded on
account 1 and its saldo at 150.00, written out literally. -/
def cenarioComTransacao : DB :=
  { cenarioBase with
      contas := [(1, { usuario := 1, nome := "Principal", tipo := "corrente", saldo := 150, ativo := true }),
                 (2, { usuario := 2, nome := "Outra", tipo := "corrente", saldo := 5, ativo := true })]
      transacoes := [(10, { usuario := 1, conta := 1, categoria := some 1, descricao := "Salario",
                            valor := 50, tipo := .receita, data := 15, mes := 1, ano := 2025,
                            recorrente := false })] }

/-- A budget of 200.00 on category 2 (Comida) for 1/2025. -/
def orcamentoComida : Orcamento :=
  { usuario := 1, categoria := 2, limite := 200, mes := 1, ano := 2025 }

/-- cenarioBase with the Comida budget and three expense transactions in
1/2025 on that category summing to 210.00. -/
def cenarioOrcamento : DB :=
  { cenarioBase with
      orcamentos := [(5, orcamentoComida)]
      transacoes :=
        [(21, { usuario := 1, conta := 1, categoria := some 2, descricao := "Mercado",
                valor := 80, tipo := .despesa, data := 3, mes := 1, ano := 2025, recorrente := false }),
         (22, { usuario := 1, conta := 1, categoria := some 2, descricao := "Feira",
                valor := 70, tipo := .despesa, data := 10, mes := 1, ano := 2025, recorrente := false }),
         (23, { usuario := 1, conta := 1, categoria := some 2, descricao := "Restaurante",
                valor := 60, tipo := .despesa, data := 17, mes := 1, ano := 2025, recorrente := false })] }

/-- Claim C2: the delta applied by _aplicar_saldo is determined by kind
and direction — income forward adds the amount and reverse subtracts it,
expense forward subtracts and reverse adds — and concretely, starting
from balance 100.00, creating income 50.00 yields 150.00, editing it to
expense 20.00 (through the update path whose payload leaves the account
reference untouched) yields 80.00, and deleting it yields 100.00 again. -/
theorem claim_C2_aplicar_saldo_delta :
    (∀ s v : ℚ, aplicarSaldo s v .receita false = s + v) ∧
    (∀ s v : ℚ, aplicarSaldo s v .receita true = s - v) ∧
    (∀ s v : ℚ, aplicarSaldo s v .despesa false = s - v) ∧
    (∀ s v : ℚ, aplicarSaldo s v .despesa true = s + v) ∧
    ∃ db1 db2 db3 : DB,
      perform_create cenarioBase 1 10 1 (some 1) "Salario" 50 .receita 15 1 2025 false false = .ok db1 ∧
      (db1.getConta 1).map Conta.saldo = some 150 ∧
      perform_update db1 1 10 none none none (some 20) (some .despesa) none none false = .ok db2 ∧
      (db2.getConta 1).map Conta.saldo = some 80 ∧
      perform_destroy db2 1 10 false = .ok db3 ∧
      (db3.getConta 1).map Conta.saldo = some 100 := by
  refine ⟨fun s v => rfl, fun s v => rfl, fun s v => rfl, fun s v => rfl,
    _, _, _, rfl, ?_, rfl, ?_, rfl, ?_⟩ <;>
    norm_num [perform_create, perform_update, perform_destroy, cenarioBase,
      DB.getContaDoUsuario, DB.getCategoriaDoUsuario, DB.getTransacaoDoUsuario,
      DB.getConta, DB.getCategoria, DB.getTransacao, findA, DB.insertTransacao,
      DB.setTransacao, DB.delTransacao, setA, eraseA, DB.setSaldo, aplicarSaldo,
      contaFieldCategoria, List.find?]

/-- Claim C1: the balance invariant (saldo equals the initial balance
plus the signed sum of the existing transactions created through the
operations) does NOT survive every create/update/delete sequence: after
creating income 50.00 on account 1 (initial saldo 100.00) and then an
update request that re-sends the unchanged account reference and fields,
the cached saldo is 200.00, while the invariant demands
100.00 + 50.00 = 150.00.  The reversal persisted inside perform_update
is overwritten by the forward application computed on the serializer's
stale validation-time snapshot of the same account. -/
theorem claim_C1_invariante_saldo_violado :
    (cenarioBase.getConta 1).map Conta.saldo = some 100 ∧
    ∃ db1 db2 : DB,
      perform_create cenarioBase 1 10 1 (some 1) "Salario" 50 .receita 15 1 2025 false false = .ok db1 ∧
      perform_update db1 1 10 (some 1) (some 1) (some "Salario") (some 50) (some .receita)
        (some (15, 1, 2025)) (some false) false = .ok db2 ∧
      somaAssinada db2 1 = 50 ∧
      (db2.getConta 1).map Conta.saldo = some 200 ∧
      (100 : ℚ) + 50 ≠ 200 := by
  refine ⟨?_, _, _, rfl, rfl, ?_, ?_, by norm_num⟩ <;>
    norm_num [perform_create, perform_update, cenarioBase, somaAssinada, delta,
      DB.getContaDoUsuario, DB.getCategoriaDoUsuario, DB.getTransacaoDoUsuario,
      DB.getConta, DB.getCategoria, DB.getTransacao, findA, DB.insertTransacao,
      DB.setTransacao, setA, DB.setSaldo, aplicarSaldo, contaFieldCategoria,
      List.find?, List.filter]

/-- Claim C3: ledger mutations are not all-or-nothing on the web path:
transacao_criar persists the Transacao row and the saldo in two separate
autocommitted writes with every exception caught, so a failure raised by
conta.save() after the row insert (for example a saldo overflowing its
DECIMAL(12,2) column) leaves the row visible with no balance delta
applied.  The API path, by contrast, wraps both writes in
transaction.atomic, and a failure there leaves the database unchanged. -/
theorem claim_C3_atomicidade_violada_na_web :
    (transacao_criar cenarioBase 1 10 1 1 "Salario" 50 .receita 15 1 2025 false true).2 = false ∧
    ((transacao_criar cenarioBase 1 10 1 1 "Salario" 50 .receita 15 1 2025 false true).1.getTransacao 10).isSome = true ∧
    ((transacao_criar cenarioBase 1 10 1 1 "Salario" 50 .receita 15 1 2025 false true).1.getConta 1).map Conta.saldo = some 100 ∧
    perform_create cenarioBase 1 10 1 (some 1) "Salario" 50 .receita 15 1 2025 false true = .error .falhaInterna := by
  refine ⟨?_, ?_, ?_, rfl⟩ <;>
    norm_num [transacao_criar, cenarioBase, DB.getContaDoUsuario, DB.getCategoriaDoUsuario,
      DB.getConta, DB.getCategoria, DB.getTransacao, findA, DB.insertTransacao,
      DB.setSaldo, aplicarSaldo, List.find?]

/-- Claim C4: an edit that changes no field does NOT leave the balance
unchanged: after the web form created income 50.00 on account 1 (saldo
150.00), re-submitting the edit form with the very same fields leaves
the transaction row as it was but moves the saldo to 200.00 — the
in-memory reversal of the original amount is never saved, and the
forward application starts from a fresh fetch of the already-credited
balance.  The API full-update path that re-sends the account reference
lands on 200.00 as well (see the C1 theorem). -/
theorem claim_C4_edicao_nao_e_neutra :
    (cenarioAposCriarWeb.getConta 1).map Conta.saldo = some 150 ∧
    (transacao_editar cenarioAposCriarWeb 1 10 1 1 "Salario" 50 .receita 15 1 2025 false).2 = true ∧
    (transacao_editar cenarioAposCriarWeb 1 10 1 1 "Salario" 50 .receita 15 1 2025 false).1.getTransacao 10
      = cenarioAposCriarWeb.getTransacao 10 ∧
    ((transacao_editar cenarioAposCriarWeb 1 10 1 1 "Salario" 50 .receita 15 1 2025 false).1.getConta 1).map Conta.saldo
      = some 200 ∧
    some (200 : ℚ) ≠ some (150 : ℚ) := by
  refine ⟨?_, ?_, ?_, ?_, by norm_num⟩ <;>
    norm_num [transacao_editar, transacao_criar, cenarioAposCriarWeb, cenarioBase,
      DB.getContaDoUsuario, DB.getCategoriaDoUsuario, DB.getTransacaoDoUsuario,
      DB.getConta, DB.getCategoria, DB.getTransacao, findA, DB.insertTransacao,
      DB.setTransacao, setA, DB.setSaldo, aplicarSaldo, List.find?]

/-- Claim C5: a create (or update) that references an account or a
category owned by a different user fails before any write: the API
viewset raises PermissionDenied, and the web handler's owner-scoped
lookup fails, leaving the database unchanged in every case (the error
paths of the API operations carry no state, and the web path returns the
entry state). -/
theorem claim_C5_propriedade_cruzada_rejeitada :
    (∀ (db : DB) (user tid contaId : Nat) (descricao : String) (valor : ℚ) (tipo : Tipo)
        (data mes ano : Nat) (recorrente falha : Bool) (conta : Conta),
        db.getConta contaId = some conta → conta.usuario ≠ user →
        perform_create db user tid contaId none descricao valor tipo data mes ano recorrente falha
          = .error .permissaoNegada) ∧
    (∀ (db : DB) (user tid contaId catId : Nat) (descricao : String) (valor : ℚ) (tipo : Tipo)
        (data mes ano : Nat) (recorrente falha : Bool) (conta : Conta) (cat : Categoria),
        db.getConta contaId = some conta → conta.usuario = user →
        db.getCategoria catId = some cat → cat.usuario ≠ user →
        perform_create db user tid contaId (some catId) descricao valor tipo data mes ano recorrente falha
          = .error .permissaoNegada) ∧
    (∀ (db : DB) (user tid contaId catId : Nat) (descricao : String) (valor : ℚ) (tipo : Tipo)
        (data mes ano : Nat) (recorrente falha : Bool) (conta : Conta),
        db.getConta contaId = some conta → conta.usuario ≠ user →
        transacao_criar db user tid contaId catId descricao valor tipo data mes ano recorrente falha
          = (db, false)) ∧
    (∀ (db : DB) (user tid cid : Nat) (catF : Option Nat) (dF : Option String) (vF : Option ℚ)
        (tF : Option Tipo) (dataF : Option (Nat × Nat × Nat)) (rF : Option Bool) (falha : Bool)
        (inst : Transacao) (instConta c : Conta),
        db.getTransacaoDoUsuario user tid = some inst →
        db.getConta inst.conta = some instConta →
        db.getConta cid = some c → c.usuario ≠ user →
        perform_update db user tid (some cid) catF dF vF tF dataF rF falha
          = .error .permissaoNegada) := by
  refine ⟨?_, ?_, ?_, ?_⟩
  · intro db user tid contaId descricao valor tipo data mes ano recorrente falha conta hConta hUser
    simp only [perform_create, hConta]
    simp [hUser]
  · intro db user tid contaId catId descricao valor tipo data mes ano recorrente falha conta cat
      hConta hOwn hCat hCatUser
    simp only [perform_create, hConta, hCat]
    simp [hOwn, hCatUser]
  · intro db user tid contaId catId descricao valor tipo data mes ano recorrente falha conta hConta hUser
    simp [transacao_criar, DB.getContaDoUsuario, hConta, hUser]
  · intro db user tid cid catF dF vF tF dataF rF falha inst instConta c hInst hInstConta hC hUser
    simp only [perform_update, hInst, hInstConta, hC]
    simp [hUser]

/-- Claim C5 witness: in cenarioComTransacao, user 1 referencing user
2's account 2 or category 3 is rejected with PermissionDenied by the
API create and update, and the web create returns the database
unchanged. -/
theorem claim_C5_propriedade_cruzada_rejeitada_witness :
    perform_create cenarioBase 1 30 2 none "x" 10 .receita 1 1 2025 false false
      = .error .permissaoNegada ∧
    perform_create cenarioBase 1 30 1 (some 3) "x" 10 .receita 1 1 2025 false false
      = .error .permissaoNegada ∧
    transacao_criar cenarioBase 1 30 2 1 "x" 10 .receita 1 1 2025 false false
      = (cenarioBase, false) ∧
    perform_update cenarioComTransacao 1 10 (some 2) none none none none none none false
      = .error .permissaoNegada := by
  obtain ⟨h1, h2, h3, h4⟩ := claim_C5_propriedade_cruzada_rejeitada
  refine ⟨h1 cenarioBase 1 30 2 "x" 10 .receita 1 1 2025 false false
      { usuario := 2, nome := "Outra", tipo := "corrente", saldo := 5, ativo := true } rfl (by decide),
    h2 cenarioBase 1 30 1 3 "x" 10 .receita 1 1 2025 false false
      { usuario := 1, nome := "Principal", tipo := "corrente", saldo := 100, ativo := true }
      { usuario := 2, nome := "Lazer", tipo := .despesa } rfl rfl rfl (by decide),
    h3 cenarioBase 1 30 2 1 "x" 10 .receita 1 1 2025 false false
      { usuario := 2, nome := "Outra", tipo := "corrente", saldo := 5, ativo := true } rfl (by decide),
    h4 cenarioComTransacao 1 10 2 none none none none none none false
      { usuario := 1, conta := 1, categoria := some 1, descricao := "Salario",
        valor := 50, tipo := .receita, data := 15, mes := 1, ano := 2025, recorrente := false }
      { usuario := 1, nome := "Principal", tipo := "corrente", saldo := 150, ativo := true }
      { usuario := 2, nome := "Outra", tipo := "corrente", saldo := 5, ativo := true }
      rfl rfl rfl (by decide)⟩

/-- Characterisation of _status_orcamento's threshold table. -/
theorem statusOrcamento_spec (p : ℚ) :
    (statusOrcamento p = "normal" ↔ p < 70) ∧
    (statusOrcamento p = "atencao" ↔ 70 ≤ p ∧ p < 90) ∧
    (statusOrcamento p = "critico" ↔ 90 ≤ p ∧ p < 100) ∧
    (statusOrcamento p = "excedido" ↔ 100 ≤ p) := by
  unfold statusOrcamento
  split_ifs with h1 h2 h3 <;>
    refine ⟨?_, ?_, ?_, ?_⟩ <;>
      constructor <;> intro h <;>
        first
          | rfl
          | linarith
          | (exact absurd h (by decide))
          | (constructor <;> linarith)

/-- Claim C6: for every budget of the queried month/year,
orcamento_performance reports spent = the sum of the category's expense
transactions in that month/year, available = limit minus spent, percent
= spent/limit×100 with percent 0 whenever the limit is nonpositive (no
division is attempted), and the status determined exactly by the 70/90/
100 thresholds. -/
theorem claim_C6_orcamento_performance (db : DB) (user oid : Nat) (orc : Orcamento)
    (hMem : (oid, orc) ∈ db.orcamentos) (hU : orc.usuario = user) :
    orcamento_performance_item db user orc ∈ orcamento_performance db user orc.mes orc.ano ∧
    (orcamento_performance_item db user orc).gasto
      = gastoOrcamento db user orc.categoria orc.mes orc.ano ∧
    (orcamento_performance_item db user orc).limite = orc.limite ∧
    (orcamento_performance_item db user orc).disponivel
      = orc.limite - (orcamento_performance_item db user orc).gasto ∧
    (orc.limite ≤ 0 → (orcamento_performance_item db user orc).percentual = 0) ∧
    (0 < orc.limite → (orcamento_performance_item db user orc).percentual
      = (orcamento_performance_item db user orc).gasto / orc.limite * 100) ∧
    ((orcamento_performance_item db user orc).status = "normal"
      ↔ (orcamento_performance_item db user orc).percentual < 70) ∧
    ((orcamento_performance_item db user orc).status = "atencao"
      ↔ 70 ≤ (orcamento_performance_item db user orc).percentual
        ∧ (orcamento_performance_item db user orc).percentual < 90) ∧
    ((orcamento_performance_item db user orc).status = "critico"
      ↔ 90 ≤ (orcamento_performance_item db user orc).percentual
        ∧ (orcamento_performance_item db user orc).percentual < 100) ∧
    ((orcamento_performance_item db user orc).status = "excedido"
      ↔ 100 ≤ (orcamento_performance_item db user orc).percentual) := by
  obtain ⟨s1, s2, s3, s4⟩ := statusOrcamento_spec
    (percentualOrcamento orc.limite (gastoOrcamento db user orc.categoria orc.mes orc.ano))
  refine ⟨?_, rfl, rfl, rfl, ?_, ?_, s1, s2, s3, s4⟩
  · unfold orcamento_performance
    exact List.mem_map_of_mem _ (List.mem_filter.mpr ⟨hMem, by simp [hU]⟩)
  · intro h
    simp [orcamento_performance_item, percentualOrcamento, not_lt.mpr h]
  · intro h
    simp [orcamento_performance_item, percentualOrcamento, h]

/-- Claim C6 witness: a budget of limit 200.00 whose category gathered
three expense transactions of 80 + 70 + 60 = 210.00 in its month
reports spent 210.00, available −10.00, percent 105, status excedido. -/
theorem claim_C6_orcamento_performance_witness :
    orcamento_performance_item cenarioOrcamento 1 orcamentoComida
      ∈ orcamento_performance cenarioOrcamento 1 1 2025 ∧
    (orcamento_performance_item cenarioOrcamento 1 orcamentoComida).gasto = 210 ∧
    (orcamento_performance_item cenarioOrcamento 1 orcamentoComida).disponivel = -10 ∧
    (orcamento_performance_item cenarioOrcamento 1 orcamentoComida).percentual = 105 ∧
    (orcamento_performance_item cenarioOrcamento 1 orcamentoComida).status = "excedido" := by
  obtain ⟨hm, hg, hl, hd, hp0, hp, s1, s2, s3, s4⟩ :=
    claim_C6_orcamento_performance cenarioOrcamento 1 5 orcamentoComida
      (by simp [cenarioOrcamento]) rfl
  have h210 : (orcamento_performance_item cenarioOrcamento 1 orcamentoComida).gasto = 210 := by
    rw [hg]
    norm_num [gastoOrcamento, cenarioOrcamento, cenarioBase, orcamentoComida]
  have h105 : (orcamento_performance_item cenarioOrcamento 1 orcamentoComida).percentual = 105 := by
    rw [hp (by norm_num [orcamentoComida]), h210]
    norm_num [orcamentoComida]
  refine ⟨hm, h210, ?_, h105, s4.mpr (by rw [h105]; norm_num)⟩
  rw [hd, h210]
  norm_num [orcamentoComida]

/-- Every alert get_alertas produces carries one of the three levels. -/
theorem get_alertas_nivel (db : DB) (user mes ano : Nat) :
    ∀ a ∈ get_alertas db user mes ano,
      a.nivel = "critico" ∨ a.nivel = "alto" ∨ a.nivel = "medio" := by
  intro a ha
  unfold get_alertas at ha
  obtain ⟨p, hp, hc⟩ := List.mem_filterMap.mp ha
  unfold criar_alerta at hc
  split_ifs at hc
  · have h := Option.some_inj.mp hc
    subst h
    left
    rfl
  · have h := Option.some_inj.mp hc
    subst h
    right
    left
    rfl
  · have h := Option.some_inj.mp hc
    subst h
    right
    right
    rfl

/-- A list of alerts whose levels all lie in the three-level set is
counted exactly by the three per-level counters. -/
theorem countP_niveis (l : List Alerta)
    (h : ∀ a ∈ l, a.nivel = "critico" ∨ a.nivel = "alto" ∨ a.nivel = "medio") :
    l.length = l.countP (fun a => a.nivel == "critico")
      + l.countP (fun a => a.nivel == "alto")
      + l.countP (fun a => a.nivel == "medio") := by
  induction l with
  | nil => simp
  | cons a t ih =>
    have ht := fun b hb => h b (List.mem_cons_of_mem a hb)
    have ha := h a (List.mem_cons_self a t)
    simp only [List.countP_cons, List.length_cons]
    rcases ha with h1 | h1 | h1 <;> rw [h1] <;> simp [ih ht] <;> omega

/-- Claim C7: _criar_alerta assigns severity by percent — at least 100
critico, in [90, 100) alto, in [75, 90) medio, below 75 no alert — a
budget at exactly 100 percent is critico (not alto), and contar_alertas
reports the total number of alerts and the count at each of the three
levels (which partition the total). -/
theorem claim_C7_niveis_de_alerta :
    (∀ (oid : Nat) (orc : Orcamento) (p : ℚ),
      (criar_alerta oid orc p).map Alerta.nivel
        = (if 100 ≤ p then some "critico" else if 90 ≤ p then some "alto"
           else if 75 ≤ p then some "medio" else none)) ∧
    (∀ (oid : Nat) (orc : Orcamento),
      (criar_alerta oid orc 100).map Alerta.nivel = some "critico") ∧
    (∀ (db : DB) (user mes ano : Nat),
      (contar_alertas (get_alertas db user mes ano)).total = (get_alertas db user mes ano).length ∧
      (contar_alertas (get_alertas db user mes ano)).criticos
        = (get_alertas db user mes ano).countP (fun a => a.nivel == "critico") ∧
      (contar_alertas (get_alertas db user mes ano)).altos
        = (get_alertas db user mes ano).countP (fun a => a.nivel == "alto") ∧
      (contar_alertas (get_alertas db user mes ano)).medios
        = (get_alertas db user mes ano).countP (fun a => a.nivel == "medio") ∧
      (contar_alertas (get_alertas db user mes ano)).total
        = (contar_alertas (get_alertas db user mes ano)).criticos
          + (contar_alertas (get_alertas db user mes ano)).altos
          + (contar_alertas (get_alertas db user mes ano)).medios) := by
  refine ⟨?_, ?_, ?_⟩
  · intro oid orc p
    unfold criar_alerta
    split_ifs <;> rfl
  · intro oid orc
    unfold criar_alerta
    split_ifs with h1 <;> first | rfl | (exact absurd (le_refl (100 : ℚ)) h1)
  · intro db user mes ano
    exact ⟨rfl, rfl, rfl, rfl, countP_niveis _ (get_alertas_nivel db user mes ano)⟩

/-- Claim C8: tendencia_gastos splits the day sequence at its midpoint,
compares the mean of the first half with the mean of the second half,
and labels the trend crescente when the relative change exceeds 5
percent, decrescente below −5 percent, estavel otherwise; with no data
points it returns mean 0, trend estavel, variation 0. -/
theorem claim_C8_tendencia_gastos :
    tendencia_gastos []
      = { mediaDiaria := 0, tendencia := "estavel", variacao := 0, diasAnalisados := 0 } ∧
    (∀ valores : List ℚ, valores ≠ [] →
      (tendencia_gastos valores).mediaDiaria = valores.sum / (valores.length : ℚ)) ∧
    (∀ valores : List ℚ, valores ≠ [] → 0 < valores.length / 2 →
      0 < (valores.take (valores.length / 2)).sum / ((valores.length / 2 : Nat) : ℚ) →
      (tendencia_gastos valores).variacao
        = ((valores.drop (valores.length / 2)).sum / ((valores.length - valores.length / 2 : Nat) : ℚ)
            - (valores.take (valores.length / 2)).sum / ((valores.length / 2 : Nat) : ℚ))
          / ((valores.take (valores.length / 2)).sum / ((valores.length / 2 : Nat) : ℚ)) * 100) ∧
    (∀ valores : List ℚ, valores ≠ [] →
      ((tendencia_gastos valores).tendencia = "crescente"
        ↔ 5 < (tendencia_gastos valores).variacao) ∧
      ((tendencia_gastos valores).tendencia = "decrescente"
        ↔ (tendencia_gastos valores).variacao < -5) ∧
      ((tendencia_gastos valores).tendencia = "estavel"
        ↔ -5 ≤ (tendencia_gastos valores).variacao ∧ (tendencia_gastos valores).variacao ≤ 5)) := by
  refine ⟨rfl, ?_, ?_, ?_⟩
  · intro valores h
    simp [tendencia_gastos, h]
  · intro valores h hMeio hPos
    simp only [tendencia_gastos, List.isEmpty_eq_true, h, if_false, if_pos hMeio, if_pos hPos]
  · intro valores h
    simp only [tendencia_gastos, List.isEmpty_eq_true, h, if_false]
    split_ifs with h1 h2 <;>
      refine ⟨?_, ?_, ?_⟩ <;>
        constructor <;> intro hx <;>
          first
            | rfl
            | linarith
            | (exact absurd hx (by decide))
            | (constructor <;> linarith)

/-- Claim C8 witness: on the two-day series [1, 2] the halves have means
1 and 2, so the variation is 100 percent and the trend is crescente; the
overall mean is 3/2. -/
theorem claim_C8_tendencia_gastos_witness :
    (tendencia_gastos [1, 2]).mediaDiaria = 3 / 2 ∧
    (tendencia_gastos [1, 2]).variacao = 100 ∧
    (tendencia_gastos [1, 2]).tendencia = "crescente" := by
  obtain ⟨he, hm, hv, hl⟩ := claim_C8_tendencia_gastos
  have hne : ([1, 2] : List ℚ) ≠ [] := by simp
  have hvar : (tendencia_gastos ([1, 2] : List ℚ)).variacao = 100 := by
    rw [hv [1, 2] hne (by norm_num) (by norm_num)]
    norm_num
  refine ⟨?_, hvar, ((hl [1, 2] hne).1).mpr (by rw [hvar]; norm_num)⟩
  rw [hm [1, 2] hne]
  norm_num

/-- Claim C9: resumo_geral divides each average by max(count, 1), a
denominator that is always positive, so a window with zero income (or
expense) transactions yields average 0 instead of an error, and the net
balance equals the income total minus the expense total. -/
theorem claim_C9_resumo_geral_divisao_segura (db : DB) (user dataInicio dataFim : Nat) :
    (0 : ℚ) < ((max (resumo_geral db user dataInicio dataFim).qtdReceitas 1 : Nat) : ℚ) ∧
    (0 : ℚ) < ((max (resumo_geral db user dataInicio dataFim).qtdDespesas 1 : Nat) : ℚ) ∧
    (resumo_geral db user dataInicio dataFim).mediaReceita
      = (resumo_geral db user dataInicio dataFim).totalReceitas
        / ((max (resumo_geral db user dataInicio dataFim).qtdReceitas 1 : Nat) : ℚ) ∧
    (resumo_geral db user dataInicio dataFim).mediaDespesa
      = (resumo_geral db user dataInicio dataFim).totalDespesas
        / ((max (resumo_geral db user dataInicio dataFim).qtdDespesas 1 : Nat) : ℚ) ∧
    ((resumo_geral db user dataInicio dataFim).qtdReceitas = 0 →
      (resumo_geral db user dataInicio dataFim).mediaReceita = 0) ∧
    ((resumo_geral db user dataInicio dataFim).qtdDespesas = 0 →
      (resumo_geral db user dataInicio dataFim).mediaDespesa = 0) ∧
    (resumo_geral db user dataInicio dataFim).balanco
      = (resumo_geral db user dataInicio dataFim).totalReceitas
        - (resumo_geral db user dataInicio dataFim).totalDespesas := by
  refine ⟨?_, ?_, rfl, rfl, ?_, ?_, rfl⟩
  · exact_mod_cast Nat.lt_of_lt_of_le Nat.zero_lt_one (Nat.le_max_right _ 1)
  · exact_mod_cast Nat.lt_of_lt_of_le Nat.zero_lt_one (Nat.le_max_right _ 1)
  · intro h
    simp only [resumo_geral] at h ⊢
    rw [List.length_eq_zero] at h
    rw [h]
    simp
  · intro h
    simp only [resumo_geral] at h ⊢
    rw [List.length_eq_zero] at h
    rw [h]
    simp

/-- Claim C9 witness: over cenarioBase (no transactions at all in the
window) both averages are 0 and the denominators positive. -/
theorem claim_C9_resumo_geral_divisao_segura_witness :
    (0 : ℚ) < ((max (resumo_geral cenarioBase 1 0 100).qtdReceitas 1 : Nat) : ℚ) ∧
    (resumo_geral cenarioBase 1 0 100).mediaReceita = 0 ∧
    (resumo_geral cenarioBase 1 0 100).mediaDespesa = 0 ∧
    (resumo_geral cenarioBase 1 0 100).balanco
      = (resumo_geral cenarioBase 1 0 100).totalReceitas
        - (resumo_geral cenarioBase 1 0 100).totalDespesas := by
  obtain ⟨hp1, hp2, hmr, hmd, hz1, hz2, hb⟩ :=
    claim_C9_resumo_geral_divisao_segura cenarioBase 1 0 100
  exact ⟨hp1, hz1 rfl, hz2 rfl, hb⟩

/-- Unfolding of findA over a cons cell. -/
theorem findA_cons {α : Type} (p : Nat × α) (t : List (Nat × α)) (k : Nat) :
    findA (p :: t) k = if p.1 = k then some p.2 else findA t k := by
  by_cases h : p.1 = k
  · rw [if_pos h]
    simp [findA, List.find?_cons_of_pos, h]
  · rw [if_neg h]
    simp only [findA]
    rw [List.find?_cons_of_neg]
    simp [h]

/-- setA is the identity when the key does not occur. -/
theorem setA_eq_of_not_mem {α : Type} (l : List (Nat × α)) (k : Nat) (v : α)
    (h : k ∉ l.map Prod.fst) : setA l k v = l := by
  induction l with
  | nil => rfl
  | cons p t ih =>
    simp only [List.map_cons, List.mem_cons, not_or] at h
    show (if p.1 = k then (k, v) else p) :: setA t k v = p :: t
    rw [if_neg (fun he => h.1 he.symm), ih h.2]

/-- Looking up the overwritten key after setA yields the new value
whenever the key was present. -/
theorem findA_setA_self {α : Type} (l : List (Nat × α)) (k : Nat) (v : α) :
    findA (setA l k v) k = if (findA l k).isSome then some v else none := by
  induction l with
  | nil => rfl
  | cons p t ih =>
    show findA ((if p.1 = k then (k, v) else p) :: setA t k v) k = _
    by_cases h : p.1 = k
    · rw [if_pos h, findA_cons, findA_cons, if_pos h]
      simp
    · rw [if_neg h, findA_cons, if_neg h, ih, findA_cons, if_neg h]

/-- Lookups at other keys are unaffected by setA. -/
theorem findA_setA_ne {α : Type} (l : List (Nat × α)) (k k' : Nat) (v : α) (h : k' ≠ k) :
    findA (setA l k v) k' = findA l k' := by
  induction l with
  | nil => rfl
  | cons p t ih =>
    show findA ((if p.1 = k then (k, v) else p) :: setA t k v) k' = _
    by_cases hp : p.1 = k
    · rw [if_pos hp, findA_cons, findA_cons,
        if_neg (show ¬((k, v).1 = k') from fun he => h he.symm),
        if_neg (show ¬(p.1 = k') from fun he => h (he.symm.trans hp))]
      exact ih
    · rw [if_neg hp, findA_cons, findA_cons]
      by_cases hq : p.1 = k'
      · rw [if_pos hq, if_pos hq]
      · rw [if_neg hq, if_neg hq]
        exact ih

/-- Deactivating a stored account removes exactly its contribution from
the active-balance sum, assuming primary keys are unique. -/
theorem saldo_total_setA_desativar (l : List (Nat × Conta)) (user cid : Nat) (c : Conta)
    (hNodup : (l.map Prod.fst).Nodup) (hFind : findA l cid = some c) (hOwn : c.usuario = user) :
    (((setA l cid { c with ativo := false }).filter
        (fun p => p.2.usuario == user && p.2.ativo)).map (fun p => p.2.saldo)).sum
      = ((l.filter (fun p => p.2.usuario == user && p.2.ativo)).map (fun p => p.2.saldo)).sum
        - (if c.ativo then c.saldo else 0) := by
  induction l with
  | nil => simp [findA] at hFind
  | cons p t ih =>
    simp only [List.map_cons, List.nodup_cons] at hNodup
    obtain ⟨hp1, hp2⟩ := hNodup
    rw [findA_cons] at hFind
    by_cases hk : p.1 = cid
    · rw [if_pos hk] at hFind
      obtain rfl : p.2 = c := Option.some_inj.mp hFind
      have ht : setA t cid { p.2 with ativo := false } = t :=
        setA_eq_of_not_mem _ _ _ (hk ▸ hp1)
      show ((((if p.1 = cid then (cid, { p.2 with ativo := false }) else p) :: setA t cid _).filter
          (fun q => q.2.usuario == user && q.2.ativo)).map (fun q => q.2.saldo)).sum = _
      rw [if_pos hk, ht]
      cases hAtivo : p.2.ativo <;>
        simp [List.filter_cons, hAtivo, hOwn]
    · rw [if_neg hk] at hFind
      show ((((if p.1 = cid then (cid, { c with ativo := false }) else p) :: setA t cid _).filter
          (fun q => q.2.usuario == user && q.2.ativo)).map (fun q => q.2.saldo)).sum = _
      rw [if_neg hk]
      simp only [List.filter_cons]
      by_cases hP : (p.2.usuario == user && p.2.ativo) = true
      · simp only [hP, if_true, List.map_cons, List.sum_cons, ih hp2 hFind]
        ring
      · simp only [Bool.not_eq_true] at hP
        simp only [hP, Bool.false_eq_true, if_false, ih hp2 hFind]

/-- Claim C10: conta_deletar is a soft delete — for an account owned by
the requester it only flips the ativo flag: the account row stays (same
usuario, nome, saldo and every other field), every transaction and other
table is untouched, other accounts keep their rows, and the only effect
on the dashboard's active-accounts total is that this account's saldo
stops being counted. -/
theorem claim_C10_conta_soft_delete (db : DB) (user cid : Nat) (c : Conta)
    (hGet : db.getConta cid = some c) (hOwn : c.usuario = user)
    (hNodup : (db.contas.map Prod.fst).Nodup) :
    (conta_deletar db user cid).2 = true ∧
    (conta_deletar db user cid).1.transacoes = db.transacoes ∧
    (conta_deletar db user cid).1.categorias = db.categorias ∧
    (conta_deletar db user cid).1.orcamentos = db.orcamentos ∧
    (conta_deletar db user cid).1.getConta cid = some { c with ativo := false } ∧
    (∀ other, other ≠ cid → (conta_deletar db user cid).1.getConta other = db.getConta other) ∧
    saldo_total (conta_deletar db user cid).1 user
      = saldo_total db user - (if c.ativo then c.saldo else 0) := by
  have hDel : conta_deletar db user cid = (db.setConta cid { c with ativo := false }, true) := by
    simp [conta_deletar, DB.getContaDoUsuario, hGet, hOwn]
  rw [hDel]
  refine ⟨rfl, rfl, rfl, rfl, ?_, ?_, ?_⟩
  · show findA (setA db.contas cid _) cid = _
    rw [findA_setA_self]
    have hf : findA db.contas cid = some c := hGet
    rw [hf]
    rfl
  · intro other hne
    show findA (setA db.contas cid _) other = findA db.contas other
    exact findA_setA_ne _ _ _ _ hne
  · exact saldo_total_setA_desativar db.contas user cid c hNodup hGet hOwn

/-- Claim C10 witness: soft-deleting account 1 of cenarioBase keeps its
row (saldo still 100.00, ativo now false), keeps the transactions table,
leaves account 2 alone, and removes 100.00 from user 1's active total. -/
theorem claim_C10_conta_soft_delete_witness :
    (conta_deletar cenarioBase 1 1).2 = true ∧
    (conta_deletar cenarioBase 1 1).1.transacoes = cenarioBase.transacoes ∧
    (conta_deletar cenarioBase 1 1).1.getConta 1
      = some { usuario := 1, nome := "Principal", tipo := "corrente", saldo := 100, ativo := false } ∧
    (conta_deletar cenarioBase 1 1).1.getConta 2 = cenarioBase.getConta 2 ∧
    saldo_total (conta_deletar cenarioBase 1 1).1 1 = saldo_total cenarioBase 1 - 100 := by
  obtain ⟨h1, h2, h3, h4, h5, h6, h7⟩ :=
    claim_C10_conta_soft_delete cenarioBase 1 1
      { usuario := 1, nome := "Principal", tipo := "corrente", saldo := 100, ativo := true }
      rfl rfl (by decide)
  refine ⟨h1, h2, h5, h6 2 (by decide), ?_⟩
  rw [h7]
  norm_num

end Budget
